import Mathlib

/-!
Verification of the clockwise testbed executor against its specification.

Each section embeds one source module (file and line numbers in the doc
comments) as executable Lean definitions; theorems at the end settle the
specification claims against those definitions.
-/

namespace Clockwise

/-! ## `common/src/mem.rs` — the stream-operation bit decoder -/

namespace Mem

/-- Memory statistic category (`hil::CounterId`, mem.rs lines 24-38).
Rust `u32` payload fields are carried as `Nat` already reduced mod 2^32 by
the byte composition. -/
inductive CounterId
| allGrantStructures (pid : Nat)
| customGrant (pid : Nat)
| grant (pid grant_no : Nat)
| grantPointerTable (pid : Nat)
| pcb (pid : Nat)
| upcallQueue (pid : Nat)
deriving DecidableEq, Repr

/-- Operation to apply to an aggregated memory statistic
(`StreamOperation`, mem.rs lines 80-85). -/
inductive StreamOperation
| add (c : CounterId) (v : Nat)
| set (c : CounterId) (v : Nat)
deriving DecidableEq, Repr

/-- The distinct error strings produced by the decoder, one constructor per
`Err` construction site in mem.rs. -/
inductive DecodeError
| noOpCounterByte
| u32Ended (atByte : Nat)
| counterNotIdentified (id : Nat)
| invalidOperation (v : Nat)
deriving DecidableEq, Repr

/-- Outcome of running `TryFrom<&[u8]> for StreamOperation`: an `Ok` value, an
`Err` value, or a Rust panic (reachable through the slice expression
`&val[1..val.len().saturating_sub(4)]`, mem.rs line 99). -/
inductive DecodeOutcome
| ok (op : StreamOperation)
| err (e : DecodeError)
| panicked
deriving DecidableEq, Repr

/-- `extract_u32` (mem.rs lines 5-16): pull four bytes off the front of the
iterator (modelled as the remaining byte list) and compose them little-endian;
report at which byte the data ran out otherwise.  Returns the value together
with the advanced iterator. -/
def extract_u32 : List Nat → Except DecodeError (Nat × List Nat)
| [] => .error (.u32Ended 0)
| _ :: [] => .error (.u32Ended 1)
| _ :: _ :: [] => .error (.u32Ended 2)
| _ :: _ :: _ :: [] => .error (.u32Ended 3)
| b0 :: b1 :: b2 :: b3 :: rest =>
    .ok ((b0 ||| (b1 <<< 8) ||| (b2 <<< 16) ||| (b3 <<< 24)), rest)

/-- `TryFrom<(u8, &[u8])> for CounterId` (mem.rs lines 54-74): decode the
counter-specific payload from its own iterator over `specifics`. -/
def CounterId.tryFrom (counter_val : Nat) (specifics : List Nat) :
    Except DecodeError CounterId :=
  match counter_val with
  | 1 => do let (v, _) ← extract_u32 specifics; pure (.pcb v)
  | 2 => do let (v, _) ← extract_u32 specifics; pure (.upcallQueue v)
  | 3 => do let (v, _) ← extract_u32 specifics; pure (.grantPointerTable v)
  | 4 => do
      let (a, rest) ← extract_u32 specifics
      let (b, _) ← extract_u32 rest
      pure (.grant a b)
  | 5 => do let (v, _) ← extract_u32 specifics; pure (.customGrant v)
  | v => .error (.counterNotIdentified v)

/-- Rust slice indexing `&l[a..b]`: panics (`none`) when `a > b` or
`b > l.len()`, otherwise yields the subslice. -/
def sliceRange (l : List Nat) (a b : Nat) : Option (List Nat) :=
  if a ≤ b ∧ b ≤ l.length then some ((l.drop a).take (b - a)) else none

/-- `TryFrom<&[u8]> for StreamOperation` (mem.rs lines 87-110).  The iterator
`data_it` has consumed exactly the header byte when the operand is extracted
from it (line 104/105), so the operand bytes are `val[1..5]`; the counter
payload is the separate slice `&val[1..val.len().saturating_sub(4)]`
(line 99), whose evaluation panics when the slice bounds are inverted. -/
def StreamOperation.tryFrom (val : List Nat) : DecodeOutcome :=
  match val with
  | [] => .err .noOpCounterByte
  | op_counter :: rest =>
    let op_val := (op_counter &&& 0x80) >>> 7
    let counter_val := op_counter &&& 0x7f
    match sliceRange val 1 (val.length - 4) with
    | none => .panicked
    | some counter_data =>
      match CounterId.tryFrom counter_val counter_data with
      | .error e => .err e
      | .ok counter =>
        match op_val with
        | 0 =>
          match extract_u32 rest with
          | .ok (v, _) => .ok (.set counter v)
          | .error e => .err e
        | 1 =>
          match extract_u32 rest with
          | .ok (v, _) => .ok (.add counter v)
          | .error e => .err e
        | v => .err (.invalidOperation v)

end Mem

/-! ## `src/testing.rs` — signals, stimulus operations and the test model -/

namespace Stimulus

/-- `Signal` (testing.rs lines 43-47): a digital level on a pin (`u8` pin
number carried as `Nat`). -/
inductive Signal
| high (pin : Nat)
| low (pin : Nat)
deriving DecidableEq, Repr, Inhabited

/-- `Operation` (testing.rs lines 58-62): a stimulus event.  `time` is the
millisecond offset (`u64`). -/
structure Operation where
  time : Nat
  input : Signal
deriving DecidableEq, Repr, Inhabited

/-- `Ord for Operation` (testing.rs lines 70-74): comparison consults only the
`time` field. -/
def Operation.cmp (a b : Operation) : Ordering :=
  compare a.time b.time

/-- The `≤` test the heap performs on `Reverse<Operation>` values:
`Reverse(a) <= Reverse(b)` unfolds to `b <= a`, which under
`Ord for Operation` is `b.time <= a.time`. -/
def reverseLe (a b : Operation) : Bool :=
  decide (b.time ≤ a.time)

/-- The hole-moving loop of `BinaryHeap::sift_down_range` from Rust's
standard library, specialised to `Reverse<Operation>` and `end = data.len()`:
descend from `pos`, at each level stepping to the greater child (under the
reversed order), until the saved element is in heap order, then fill the hole.
`fuel` only bounds the descent; `data.length` steps always suffice since the
hole index strictly grows. -/
def siftDownGo : Nat → Operation → List Operation → Nat → List Operation
| 0, elem, data, pos => data.set pos elem
| fuel + 1, elem, data, pos =>
    let child := 2 * pos + 1
    if child < data.length then
      let c :=
        if child + 1 < data.length
            && reverseLe (data.getD child elem) (data.getD (child + 1) elem)
        then child + 1 else child
      if reverseLe (data.getD c elem) elem then
        data.set pos elem
      else
        siftDownGo fuel elem (data.set pos (data.getD c elem)) c
    else
      data.set pos elem

/-- `BinaryHeap::sift_down(pos)` on the underlying vector. -/
def siftDown (data : List Operation) (pos : Nat) : List Operation :=
  siftDownGo data.length (data.getD pos default) data pos

/-- The countdown loop of `BinaryHeap::rebuild`: `sift_down` at indices
`n-1, n-2, ..., 0`. -/
def rebuildGo : Nat → List Operation → List Operation
| 0, data => data
| n + 1, data => rebuildGo n (siftDown data n)

/-- `BinaryHeap::from(vec)` (reached through `collect`, testing.rs line 129):
heapify the vector in place via `rebuild`, which sifts down every index below
`len / 2`. -/
def heapify (data : List Operation) : List Operation :=
  rebuildGo (data.length / 2) data

/-- `Criterion` (testing.rs lines 94-97). -/
inductive Criterion
| response (pin : Nat)
deriving DecidableEq, Repr

/-- `Test` (testing.rs lines 117-121): `actions` is the underlying vector of
the `BinaryHeap<Reverse<Operation>>`. -/
structure Test where
  id : String
  actions : List Operation
  criteria : List Criterion
deriving DecidableEq, Repr

/-- `Test::new` (testing.rs lines 124-132): collecting the operations into a
`BinaryHeap<Reverse<Operation>>` heapifies the vector of arrivals. -/
def Test.new (id : String) (ops : List Operation) (criteria : List Criterion) :
    Test :=
  { id := id, actions := heapify ops, criteria := criteria }

/-- `Test::execute` (testing.rs lines 142-161) builds its timeline with
`self.actions.iter()`, which walks the heap's underlying vector in storage
order; the GPIO writes (after each spin wait) therefore happen in exactly
that order.  This function is the sequence of stimulus operations in the
order their GPIO writes are performed. -/
def Test.stimulusOrder (t : Test) : List Operation :=
  t.actions

end Stimulus

/-! ## `src/testing/testbed.rs` — executor, observer and metering threads

The `Testbed::execute` loop, `launch_observer` loop body and `launch_metering`
loop are embedded as functions of the data their external interactions
produce (platform results, channel contents, GPIO outcomes), together with an
event log of the synchronisation actions they perform. -/

namespace Testbed

/-- Test-related error (`testing/error.rs` lines 14-25, plus the `Software`
constructor used by testbed.rs lines 93 and 322). -/
inductive TbError
| io
| gpio
| comm
| threading
| noSuchMeter (id : String)
| software
deriving DecidableEq, Repr

/-- Modelled from the spec: `Spec` (sw/instrument.rs is not under src/) is an
opaque record built from the requested trace points (§3 "Spec"). -/
structure PlatformSpec where
  tracePoints : List String
deriving DecidableEq, Repr

/-- Modelled from the spec: the `Test` consumed by testbed.rs
(`testing/test.rs` is not under src/), per §3 "Test": id, application ids,
trace points and criteria.  Only the accessors testbed.rs calls are needed. -/
structure TestDesc where
  id : String
  appIds : List String
  tracePoints : List String
  criteria : List Stimulus.Criterion
deriving DecidableEq, Repr

/-- Modelled from the spec: `Execution` (testing/test.rs is not under src/),
per §3: a start instant and a duration, in abstract time units. -/
structure Execution where
  start : Nat
  duration : Nat
deriving DecidableEq, Repr

/-- Modelled from the spec: `Response` (testing/test.rs is not under src/),
per §3: an observed output edge, a timestamp paired with a `Signal`. -/
structure Response where
  time : Nat
  output : Stimulus.Signal
deriving DecidableEq, Repr

/-- `Response::get_pin`: the pin number of the carried signal. -/
def Response.get_pin (r : Response) : Nat :=
  match r.output with
  | .high p => p
  | .low p => p

/-- `Response::remapped` (testbed.rs line 131): translate the physical pin to
the logical pin number through the mapping. -/
def Response.remapped (f : Nat → Nat) (r : Response) : Response :=
  { r with output := match r.output with
      | .high p => .high (f p)
      | .low p => .low (f p) }

deriving instance DecidableEq for Except

/-- Modelled from the spec: `Evaluation` outcome (testing/evaluation.rs is not
under src/), per §3: `Failed(err)` or `Completed` with execution result,
filtered GPIO responses, traces and per-meter energy samples.  The trace
reconstruction (`testing/trace.rs`, also absent) is kept abstract: the
`traces` field retains the trace-pin responses handed to it; energy sample
values (`f32` on the wire) are carried as opaque `Nat` data. -/
inductive Outcome
| failed (err : TbError)
| completed (exec : Except TbError Execution) (gpioResponses : List Response)
    (traces : List Response) (energy : List (String × List Nat))
deriving DecidableEq, Repr

/-- Modelled from the spec: `Evaluation` (testing/evaluation.rs is not under
src/), per §3: test id, optional platform spec, and the outcome; created by
the executor once per test. -/
structure Evaluation where
  testId : String
  spec : Option PlatformSpec
  outcome : Outcome
deriving DecidableEq, Repr

/-- Synchronisation actions of the executor loop: writes to the shared
`current_test` slot and `barrier.wait()` calls. -/
inductive ExecEvent
| publish (testId : Option String)
| barrier
deriving DecidableEq, Repr

/-- How one iteration of the `Testbed::execute` loop body ends: an evaluation
is pushed and the loop continues, the whole call returns `Err`, or the
executor thread panics (the `exec_result.as_ref().unwrap()` at testbed.rs
line 146). -/
inductive StepOutcome
| eval (e : Evaluation)
| fatal (err : TbError)
| panicked
deriving DecidableEq, Repr

/-- Result of `Testbed::execute` as a whole. -/
inductive RunOutcome
| ok (evals : List Evaluation)
| fatal (err : TbError)
| panicked
deriving DecidableEq, Repr

/-- Outcomes of the external interactions `Testbed::execute` performs for one
test: the platform reconfigure result, the `load_apps` result, the
`get_gpio_inputs` result, the messages each worker channel delivers before
its `None` sentinel (with a flag for a closed-channel `recv` error), and the
stimulus-execution result. -/
structure TestEnv where
  reconfigure : Except TbError PlatformSpec
  loadResult : Except TbError Unit
  gpioInputs : Except TbError Unit
  execResult : Except TbError Execution
  observerMsgs : List Response
  observerRecvErr : Bool
  energyMsgs : List (String × Nat)
  energyRecvErr : Bool

/-- `HashMap::entry(meter_id).or_insert(Vec::new()).push(sample)`
(testbed.rs lines 154-159): group channel messages per meter id, preserving
per-meter arrival order. -/
def groupInsert (acc : List (String × List Nat)) (m : String) (s : Nat) :
    List (String × List Nat) :=
  if acc.any (fun p => p.1 = m) then
    acc.map (fun p => if p.1 = m then (p.1, p.2 ++ [s]) else p)
  else
    acc ++ [(m, [s])]

/-- The executor's energy-drain loop (testbed.rs lines 154-159). -/
def groupEnergy (msgs : List (String × Nat)) : List (String × List Nat) :=
  msgs.foldl (fun acc p => groupInsert acc p.1 p.2) []

/-- One iteration of the `Testbed::execute` loop (testbed.rs lines 79-170)
for test `t` under environment `env`, with `tracePins` the mapping's trace
pin numbers and `remap` the physical-to-logical pin translation.  Returns the
synchronisation events performed and how the iteration ended. -/
def runTest (tracePins : List Nat) (remap : Nat → Nat) (t : TestDesc)
    (env : TestEnv) : List ExecEvent × StepOutcome :=
  match env.reconfigure with
  | .error e => ([], .eval ⟨t.id, none, .failed e⟩)
  | .ok platformSpec =>
    match env.loadResult with
    | .error e => ([], .eval ⟨t.id, some platformSpec, .failed e⟩)
    | .ok _ =>
      let evs := [ExecEvent.publish (some t.id)]
      match env.gpioInputs with
      | .error e => (evs, .fatal e)
      | .ok _ =>
        let evs := evs ++ [ExecEvent.barrier, ExecEvent.barrier, ExecEvent.barrier]
        if env.observerRecvErr then (evs, .fatal .comm)
        else
          let responses := env.observerMsgs.map (Response.remapped remap)
          let traceResponses := responses.filter (fun r => r.get_pin ∈ tracePins)
          let otherGpio := responses.filter (fun r => ¬ r.get_pin ∈ tracePins)
          let execFailed := match env.execResult with
            | .error _ => true
            | .ok _ => false
          if (!traceResponses.isEmpty) && execFailed then (evs, .panicked)
          else if env.energyRecvErr then (evs, .fatal .comm)
          else
            (evs, .eval ⟨t.id, some platformSpec,
              .completed env.execResult otherGpio traceResponses
                (groupEnergy env.energyMsgs)⟩)

/-- The `for test in tests` loop of `Testbed::execute` (testbed.rs
lines 79-187), with the final `current_test = None` publication and release
barrier after the loop.  `evals` and `evs` accumulate `test_results` and the
event log. -/
def executeGo (tracePins : List Nat) (remap : Nat → Nat) :
    List (TestDesc × TestEnv) → List Evaluation → List ExecEvent →
    List ExecEvent × RunOutcome
| [], evals, evs =>
    (evs ++ [ExecEvent.publish none, ExecEvent.barrier], .ok evals)
| (t, env) :: rest, evals, evs =>
    match runTest tracePins remap t env with
    | (tevs, .eval e) => executeGo tracePins remap rest (evals ++ [e]) (evs ++ tevs)
    | (tevs, .fatal err) => (evs ++ tevs, .fatal err)
    | (tevs, .panicked) => (evs ++ tevs, .panicked)

/-- `Testbed::execute` (testbed.rs lines 60-187) over a list of tests paired
with the outcomes of their external interactions. -/
def execute (tracePins : List Nat) (remap : Nat → Nat)
    (tests : List (TestDesc × TestEnv)) : List ExecEvent × RunOutcome :=
  executeGo tracePins remap tests [] []

/-! ### Observer thread (`Testbed::launch_observer`, testbed.rs lines 189-246) -/

/-- Actions of one observer-loop iteration visible to the executor: barrier
waits and sends on the response channel (`Some(r)` per response, `None` as
the terminating sentinel). -/
inductive ObsEvent
| barrier
| send (msg : Option Response)
deriving DecidableEq, Repr

/-- Outcomes of the external interactions one observer iteration performs:
the value read from the current-test slot, the `prep_observe` result, whether
each `outputs.get_pin(pin_no)` lookup succeeds, whether `test.observe`
succeeds, the responses it recorded, and whether every
`pin.clear_interrupt()` succeeds. -/
structure ObserverEnv where
  currentTest : Option TestDesc
  prepObserve : Except TbError (List Nat)
  pinLookupOk : Nat → Bool
  observeOk : Bool
  responses : List Response
  clearOk : Bool

/-- One iteration of the observer loop (testbed.rs lines 205-241): barrier
"ready", read the slot, `prep_observe(..).unwrap()`, look up and arm each pin
of interest (`unwrap`), barrier "go", `test.observe(..).unwrap()`, barrier
"done", `clear_interrupt().unwrap()` on every pin, then drain the recorded
responses over the channel followed by the `None` sentinel.  Returns the
events performed and whether the thread panicked (every failure path goes
through `unwrap`). -/
def observerIteration (env : ObserverEnv) : List ObsEvent × Bool :=
  let evs := [ObsEvent.barrier]
  match env.currentTest with
  | none => (evs, false)
  | some _ =>
    match env.prepObserve with
    | .error _ => (evs, true)
    | .ok pins =>
      if !pins.all env.pinLookupOk then (evs, true)
      else
        let evs := evs ++ [ObsEvent.barrier]
        if !env.observeOk then (evs, true)
        else
          let evs := evs ++ [ObsEvent.barrier]
          if !env.clearOk then (evs, true)
          else
            (evs ++ env.responses.map (fun r => ObsEvent.send (some r))
                 ++ [ObsEvent.send none], false)

/-! ### Metering thread (`Testbed::launch_metering`, testbed.rs lines 248-305)

The sample buffers `samples: HashMap<String, Vec<f32>>` are created once,
before the loop (lines 263-266), keyed by the meter ids, and are never
cleared between iterations; after each test's "done" barrier the whole
content of every buffer is streamed over the channel (lines 293-300). -/

/-- Outcomes of one metering iteration's external interactions: the
`prep_meter` result (Modelled from the spec, §4.6: true when some criterion
needs energy data; testing/test.rs is not under src/) and the samples
`test.meter` appends during the test, as (meter id, value) records in
recording order (Modelled from the spec, §4.6 step 3). -/
structure MeterTestEnv where
  needMetering : Bool
  recorded : List (String × Nat)
deriving DecidableEq, Repr

/-- Append one sample to the buffer of meter `m` (buffers exist only for the
ids the meter map was created with; a record for an unknown id has no buffer
to land in). -/
def appendSample (bufs : List (String × List Nat)) (m : String) (s : Nat) :
    List (String × List Nat) :=
  bufs.map (fun p => if p.1 = m then (p.1, p.2 ++ [s]) else p)

/-- `test.meter(&meters, &mut samples)`: append every recorded sample to its
meter's buffer, in recording order. -/
def meterAppend (bufs : List (String × List Nat)) (recs : List (String × Nat)) :
    List (String × List Nat) :=
  recs.foldl (fun b p => appendSample b p.1 p.2) bufs

/-- The channel messages of one result drain (testbed.rs lines 293-300): for
every meter buffer, every sample it holds, in order. -/
def sendAll (bufs : List (String × List Nat)) : List (String × Nat) :=
  bufs.flatMap (fun p => p.2.map (fun s => (p.1, s)))

/-- The metering loop over the tests of a run: starting from buffers `bufs`,
each iteration appends the test's recorded samples (when metering is needed)
and then streams the full accumulated buffer content; yields, per test, the
list of messages sent before that iteration's `None` sentinel. -/
def meteringGo : List (String × List Nat) → List MeterTestEnv →
    List (List (String × Nat))
| _, [] => []
| bufs, e :: rest =>
    let bufs := if e.needMetering then meterAppend bufs e.recorded else bufs
    sendAll bufs :: meteringGo bufs rest

/-- The metering thread of a run (testbed.rs lines 260-302): buffers start
empty, one per meter id. -/
def meteringRun (meters : List String) (envs : List MeterTestEnv) :
    List (List (String × Nat)) :=
  meteringGo (meters.map (fun m => (m, []))) envs

/-- Specification-side description of what one test records for meter `m`:
the values of the (meter id, value) records carrying id `m`, in order. -/
def recFor (recs : List (String × Nat)) (m : String) : List Nat :=
  recs.filterMap (fun p => if p.1 = m then some p.2 else none)

/-- Specification-side description of the buffer content for meter `m` after
test `i` of a run: everything recorded for `m` by tests `0..i` that metered,
concatenated in test order.  Used to state how the implementation's
never-cleared buffers behave. -/
def accumFor (envs : List MeterTestEnv) (i : Nat) (m : String) : List Nat :=
  (envs.take (i + 1)).flatMap
    (fun e => if e.needMetering then recFor e.recorded m else [])

/-! ### Concrete fixtures used by the witness theorems -/

/-- A minimal test descriptor. -/
def tAlpha : TestDesc := ⟨"alpha", [], [], []⟩

/-- A second minimal test descriptor. -/
def tBeta : TestDesc := ⟨"beta", [], [], []⟩

/-- A per-test environment whose platform reconfigure step fails. -/
def envReconfigFail : TestEnv :=
  { reconfigure := .error .software
    loadResult := .ok ()
    gpioInputs := .ok ()
    execResult := .ok ⟨0, 10⟩
    observerMsgs := []
    observerRecvErr := false
    energyMsgs := []
    energyRecvErr := false }

/-- A per-test environment in which every external interaction succeeds. -/
def envAllOk : TestEnv :=
  { reconfigure := .ok ⟨[]⟩
    loadResult := .ok ()
    gpioInputs := .ok ()
    execResult := .ok ⟨0, 10⟩
    observerMsgs := []
    observerRecvErr := false
    energyMsgs := []
    energyRecvErr := false }

/-- An observer-iteration environment with a test present and every runtime
interaction succeeding. -/
def obsEnvGood : ObserverEnv :=
  { currentTest := some tAlpha
    prepObserve := .ok [2, 3]
    pinLookupOk := fun _ => true
    observeOk := true
    responses := [⟨5, .high 2⟩]
    clearOk := true }

/-- An observer-iteration environment with a test present whose
`prep_observe` call fails. -/
def obsEnvBad : ObserverEnv :=
  { currentTest := some tAlpha
    prepObserve := .error .gpio
    pinLookupOk := fun _ => true
    observeOk := true
    responses := [⟨5, .high 2⟩]
    clearOk := true }

end Testbed

/-! ## `src/sw/platform.rs` — Tock platform support -/

namespace Platform

/-- Result of running the external `tockloader` process: the spawn itself can
fail (`Output` error), or the process runs and its status is success or
failure. -/
inductive ToolOutcome
| ioError
| success
| failed
deriving DecidableEq, Repr

/-- The error constructions reachable from `Tock::unload`
(platform.rs lines 115-136). -/
inductive PlatError
| io
| tool
| other
deriving DecidableEq, Repr

/-- External outcomes `Tock::unload` depends on: whether the tockloader path
converts to Unicode, and the result of the uninstall command. -/
structure UnloadEnv where
  pathUnicodeOk : Bool
  tockloader : ToolOutcome
deriving DecidableEq, Repr

/-- `Tock::unload` (platform.rs lines 115-136).  The state is the
`loaded_apps` set; the app id is removed from it by the `was_present` check
itself (`borrow_mut().remove(app_id)`, line 117) before the platform tool
runs, and no path reinserts it.  Returns the call's result and the
`loaded_apps` set afterwards. -/
def unload (loaded : Finset String) (app_id : String) (env : UnloadEnv) :
    Except PlatError Unit × Finset String :=
  let was_present := app_id ∈ loaded
  let remaining := loaded.erase app_id
  if ¬ was_present then (.ok (), remaining)
  else if ¬ env.pathUnicodeOk then (.error .other, remaining)
  else
    match env.tockloader with
    | .ioError => (.error .io, remaining)
    | .success => (.ok (), remaining)
    | .failed => (.error .tool, remaining)

/-- `Tock::loaded_software` (platform.rs lines 138-142): a copy of the
`loaded_apps` set. -/
def loaded_software (loaded : Finset String) : Finset String :=
  loaded

end Platform

/-! ## `src/hw/ina219.rs` — INA219 current sensor driver -/

namespace INA219

/-- `INA219::read` (ina219.rs lines 55-66): after the register pointer write
and the two-byte read-back `out = [hi, lo]`, the returned `u16` is
`((out[0] as u16) << 8) & (out[1] as u16)` (line 65) — the two halves are
combined with bitwise AND. -/
def read_combine (hi lo : Nat) : Nat :=
  (hi <<< 8) &&& lo

/-- `EnergyMetering for INA219::current_draw` (ina219.rs lines 87-91):
`read_current().unwrap() as u32`, i.e. the value `read` produced for the
CURRENT register. -/
def current_draw (hi lo : Nat) : Nat :=
  read_combine hi lo

end INA219

end Clockwise

namespace Clockwise

/-- C1: the decoder is claimed to take the u32 operand from the final four
bytes of the slice, disjoint from the counter payload, with
`[0x01, 0x07,0,0,0, 0x2A,0,0,0]` decoding to `Set(PCB(7), 42)`.  The source
instead extracts the operand from the iterator positioned just after the
header byte, i.e. from bytes 1..5 which overlap the payload: the example
frame decodes to `Set(PCB(7), 7)`, not `Set(PCB(7), 42)`. -/
theorem streamOperation_operand_overlaps_payload :
    Mem.StreamOperation.tryFrom [0x01, 0x07, 0x00, 0x00, 0x00, 0x2A, 0x00, 0x00, 0x00]
      = Mem.DecodeOutcome.ok (.set (.pcb 7) 7) ∧
    Mem.StreamOperation.tryFrom [0x01, 0x07, 0x00, 0x00, 0x00, 0x2A, 0x00, 0x00, 0x00]
      ≠ Mem.DecodeOutcome.ok (.set (.pcb 7) 42) := by
  decide

/-- C2: decoding is claimed total, returning a truncation error whenever a
field runs past the end of the slice, in particular on every slice of length
1 through 4.  The source instead evaluates `&val[1..val.len().saturating_sub(4)]`,
whose bounds are inverted (start 1, end 0) for those lengths, so Rust panics
rather than returning an error. -/
theorem streamOperation_short_slice_panics :
    Mem.StreamOperation.tryFrom [0x01] = Mem.DecodeOutcome.panicked ∧
    Mem.StreamOperation.tryFrom [0x01, 0x07] = Mem.DecodeOutcome.panicked ∧
    Mem.StreamOperation.tryFrom [0x01, 0x07, 0x00] = Mem.DecodeOutcome.panicked ∧
    Mem.StreamOperation.tryFrom [0x01, 0x07, 0x00, 0x00] = Mem.DecodeOutcome.panicked := by
  decide

end Clockwise

namespace Clockwise

/-- C3: `Test::execute` is claimed to drive the stimulus actions in ascending
`time_ms` order.  The source iterates the `BinaryHeap`'s underlying vector
with `.iter()` instead of draining it in sorted order: for arrivals with
times `[5, 1, 3]` the heapified vector is `[1, 5, 3]`, so the GPIO write for
the action at 5 ms is performed before the write for the action at 3 ms even
though `3 < 5`. -/
theorem test_execute_heap_order_not_ascending :
    (Stimulus.Test.new "c3"
        [⟨5, .high 5⟩, ⟨1, .high 1⟩, ⟨3, .high 3⟩] []).stimulusOrder.map
        Stimulus.Operation.time = [1, 5, 3] ∧
    ¬ List.Pairwise (· ≤ ·)
        ((Stimulus.Test.new "c3"
          [⟨5, .high 5⟩, ⟨1, .high 1⟩, ⟨3, .high 3⟩] []).stimulusOrder.map
          Stimulus.Operation.time) := by
  decide

/-- C10: `Ord for Operation` compares only the `time` field, so it is
inconsistent with the derived structural equality: `cmp` always reduces to a
comparison of the times, and two operations that differ in their `Signal` but
share a time compare `Equal` while being structurally unequal. -/
theorem operation_ord_ignores_signal :
    (∀ a b : Stimulus.Operation,
        Stimulus.Operation.cmp a b = compare a.time b.time) ∧
    (∃ a b : Stimulus.Operation,
        a ≠ b ∧ Stimulus.Operation.cmp a b = Ordering.eq) := by
  refine ⟨fun a b => rfl, ⟨⟨0, .high 1⟩, ⟨0, .high 2⟩, by decide, by decide⟩⟩

end Clockwise

namespace Clockwise

/-- C9: `INA219::read` is claimed to return `(hi << 8) | lo`.  The source
combines the two register bytes with bitwise AND (ina219.rs line 65); since
the low byte is at most `0xFF`, the AND of disjoint halves is 0: reading back
`hi = 0x12`, `lo = 0x34` produces 0, not `0x1234`, and `current_draw()`
forwards the same value. -/
theorem ina219_read_combines_bytes_with_and :
    INA219.read_combine 0x12 0x34 = 0 ∧
    INA219.current_draw 0x12 0x34 = 0 ∧
    ((0x12 <<< 8) ||| 0x34) = 0x1234 ∧
    INA219.read_combine 0x12 0x34 ≠ ((0x12 <<< 8) ||| 0x34) := by
  decide

/-- C8 counterexample: with `loaded_apps = {"blink"}`, calling
`unload("blink")` while the platform tool refuses returns `Err(Tool)` yet
`loaded_software()` no longer contains the app — the bookkeeping was changed
on the error path, so the claim that it is left unchanged is false. -/
theorem tock_unload_refused_app_dropped_cx :
    (Platform.unload {"blink"} "blink" ⟨true, .failed⟩).1
      = .error Platform.PlatError.tool ∧
    "blink" ∉ Platform.loaded_software
      (Platform.unload {"blink"} "blink" ⟨true, .failed⟩).2 := by
  decide

/-- C8 amended: `Tock::unload` removes the app id from the `loaded_apps`
bookkeeping before invoking the platform tool, so when the tool refuses the
call returns `Err(Tool)` with the app already absent from
`loaded_software()` — refused apps vanish from the bookkeeping instead of
remaining as leftovers. -/
theorem tock_unload_error_removes_bookkeeping (loaded : Finset String)
    (app_id : String) (env : Platform.UnloadEnv)
    (h : app_id ∈ loaded) (hp : env.pathUnicodeOk = true)
    (ht : env.tockloader = .failed) :
    (Platform.unload loaded app_id env).1 = .error Platform.PlatError.tool ∧
    (Platform.unload loaded app_id env).2 = loaded.erase app_id ∧
    app_id ∉ Platform.loaded_software (Platform.unload loaded app_id env).2 := by
  obtain ⟨p, tl⟩ := env
  simp only at hp ht
  subst hp
  subst ht
  simp [Platform.unload, Platform.loaded_software, h, Finset.not_mem_erase]

/-- C8 witness: the amended statement at the concrete refused unload. -/
theorem tock_unload_error_removes_bookkeeping_witness :
    ("blink" ∈ ({"blink"} : Finset String)) ∧
    ((Platform.unload {"blink"} "blink" ⟨true, .failed⟩).1
        = .error Platform.PlatError.tool ∧
      (Platform.unload {"blink"} "blink" ⟨true, .failed⟩).2
        = ({"blink"} : Finset String).erase "blink" ∧
      "blink" ∉ Platform.loaded_software
        (Platform.unload {"blink"} "blink" ⟨true, .failed⟩).2) :=
  ⟨by decide,
   tock_unload_error_removes_bookkeeping {"blink"} "blink" ⟨true, .failed⟩
     (by decide) rfl rfl⟩

end Clockwise

namespace Clockwise

/-- Helper: when one iteration of the executor loop pushes an evaluation, the
evaluation carries the iterated test's id (both failure constructors and the
completed constructor are built from `test.get_id()`). -/
theorem runTest_snd_eval_testId (tp : List Nat) (rm : Nat → Nat)
    (t : Testbed.TestDesc) (env : Testbed.TestEnv) (e : Testbed.Evaluation)
    (h : (Testbed.runTest tp rm t env).2 = .eval e) : e.testId = t.id := by
  unfold Testbed.runTest at h
  cases hrc : env.reconfigure with
  | error e1 =>
    rw [hrc] at h
    cases h
    rfl
  | ok sp =>
    rw [hrc] at h
    cases hld : env.loadResult with
    | error e2 =>
      rw [hld] at h
      cases h
      rfl
    | ok u =>
      rw [hld] at h
      cases hgp : env.gpioInputs with
      | error e3 =>
        rw [hgp] at h
        cases h
      | ok u2 =>
        rw [hgp] at h
        simp only at h
        split at h
        · cases h
        · split at h
          · cases h
          · split at h
            · cases h
            · cases h
              rfl

/-- Helper: unsummed form of C4 over the loop with its accumulators
generalised. -/
theorem executeGo_ok_ids (tp : List Nat) (rm : Nat → Nat) :
    ∀ (tests : List (Testbed.TestDesc × Testbed.TestEnv))
      (acc : List Testbed.Evaluation) (evs0 : List Testbed.ExecEvent)
      (evals : List Testbed.Evaluation),
      (Testbed.executeGo tp rm tests acc evs0).2 = .ok evals →
      evals.map Testbed.Evaluation.testId
        = acc.map Testbed.Evaluation.testId ++ tests.map (fun p => p.1.id)
| [], acc, evs0, evals, h => by
    simp only [Testbed.executeGo] at h
    cases h
    simp
| (t, env) :: rest, acc, evs0, evals, h => by
    simp only [Testbed.executeGo] at h
    rcases hrt : Testbed.runTest tp rm t env with ⟨tevs, o⟩
    rw [hrt] at h
    cases o with
    | eval e =>
      have hid : e.testId = t.id :=
        runTest_snd_eval_testId tp rm t env e (by rw [hrt])
      have ih := executeGo_ok_ids tp rm rest (acc ++ [e]) (evs0 ++ tevs) evals h
      simpa [hid, List.append_assoc] using ih
    | fatal err => cases h
    | panicked => cases h

/-- C4: whenever `Testbed::execute` returns `Ok`, the result list holds
exactly one `Evaluation` per input test, carrying that test's id, in input
order: mapping `test_id` over the results equals mapping `id` over the
tests. -/
theorem testbed_execute_one_evaluation_per_test
    (tp : List Nat) (rm : Nat → Nat)
    (tests : List (Testbed.TestDesc × Testbed.TestEnv))
    (evals : List Testbed.Evaluation)
    (h : (Testbed.execute tp rm tests).2 = .ok evals) :
    evals.map Testbed.Evaluation.testId = tests.map (fun p => p.1.id) := by
  simpa using executeGo_ok_ids tp rm tests [] [] evals h

/-- C4 witness: a concrete two-test run — one failed reconfigure, one fully
successful — returns one evaluation per test, in input order. -/
theorem testbed_execute_one_evaluation_per_test_witness :
    (Testbed.execute [] (fun n => n)
        [(Testbed.tAlpha, Testbed.envReconfigFail),
         (Testbed.tBeta, Testbed.envAllOk)]).2
      = .ok [⟨"alpha", none, .failed .software⟩,
             ⟨"beta", some ⟨[]⟩, .completed (.ok ⟨0, 10⟩) [] [] []⟩] ∧
    ([(⟨"alpha", none, .failed .software⟩ : Testbed.Evaluation),
      ⟨"beta", some ⟨[]⟩, .completed (.ok ⟨0, 10⟩) [] [] []⟩].map
        Testbed.Evaluation.testId
      = [(Testbed.tAlpha, Testbed.envReconfigFail),
         (Testbed.tBeta, Testbed.envAllOk)].map (fun p => p.1.id)) :=
  ⟨rfl,
   testbed_execute_one_evaluation_per_test [] (fun n => n)
     [(Testbed.tAlpha, Testbed.envReconfigFail),
      (Testbed.tBeta, Testbed.envAllOk)]
     [⟨"alpha", none, .failed .software⟩,
      ⟨"beta", some ⟨[]⟩, .completed (.ok ⟨0, 10⟩) [] [] []⟩] rfl⟩

/-- C5: a test whose reconfigure step or load step fails yields a `Failed`
evaluation (so the loop continues with the next test), and its iteration
performs no write to the shared current-test slot and no barrier wait: its
event log is empty. -/
theorem runTest_failed_skips_publish_and_barriers
    (tp : List Nat) (rm : Nat → Nat) (t : Testbed.TestDesc)
    (env : Testbed.TestEnv)
    (h : (∃ e, env.reconfigure = .error e) ∨ (∃ e, env.loadResult = .error e)) :
    (Testbed.runTest tp rm t env).1 = [] ∧
    ∃ err sp, (Testbed.runTest tp rm t env).2
        = .eval ⟨t.id, sp, .failed err⟩ := by
  unfold Testbed.runTest
  rcases h with ⟨e1, he⟩ | ⟨e2, he⟩
  · rw [he]
    exact ⟨rfl, e1, none, rfl⟩
  · cases hrc : env.reconfigure with
    | error e3 =>
      exact ⟨rfl, e3, none, rfl⟩
    | ok sp =>
      rw [he]
      exact ⟨rfl, e2, some sp, rfl⟩

/-- C5 witness: the failed-reconfigure environment produces an empty event
log and a `Failed` evaluation. -/
theorem runTest_failed_skips_publish_and_barriers_witness :
    ((∃ e, Testbed.envReconfigFail.reconfigure = .error e) ∨
      (∃ e, Testbed.envReconfigFail.loadResult = .error e)) ∧
    ((Testbed.runTest [] (fun n => n) Testbed.tAlpha Testbed.envReconfigFail).1
        = [] ∧
      ∃ err sp,
        (Testbed.runTest [] (fun n => n) Testbed.tAlpha Testbed.envReconfigFail).2
          = .eval ⟨Testbed.tAlpha.id, sp, .failed err⟩) :=
  ⟨Or.inl ⟨.software, rfl⟩,
   runTest_failed_skips_publish_and_barriers [] (fun n => n) Testbed.tAlpha
     Testbed.envReconfigFail (Or.inl ⟨.software, rfl⟩)⟩

end Clockwise

namespace Clockwise

/-- C6 counterexample: with a test present and the iteration's
`prep_observe` call failing, the observer loop body panics (the `.unwrap()`
at testbed.rs line 212) right after the "ready" barrier: no `None` sentinel
is sent on the response channel, contrary to the claim that the sentinel is
sent on every iteration even under runtime failures. -/
theorem observer_failure_sends_no_sentinel_cx :
    Testbed.observerIteration Testbed.obsEnvBad = ([.barrier], true) ∧
    Testbed.ObsEvent.send none ∉ (Testbed.observerIteration Testbed.obsEnvBad).1 := by
  decide

/-- C6 amended: in an observer iteration with a test present, the `None`
sentinel is sent — exactly once, as the final channel action — only when
every runtime interaction of the loop body succeeds; any runtime failure
panics the thread through `unwrap` and no sentinel is sent (the executor is
unblocked by the channel disconnecting instead). -/
theorem observer_sentinel_only_on_success (env : Testbed.ObserverEnv)
    (t : Testbed.TestDesc) (h : env.currentTest = some t) :
    ((Testbed.observerIteration env).2 = false →
      ((Testbed.observerIteration env).1.count (Testbed.ObsEvent.send none) = 1 ∧
       (Testbed.observerIteration env).1.getLast?
          = some (Testbed.ObsEvent.send none))) ∧
    ((Testbed.observerIteration env).2 = true →
      Testbed.ObsEvent.send none ∉ (Testbed.observerIteration env).1) := by
  obtain ⟨ct, po, plo, oOk, resp, cOk⟩ := env
  simp only [Testbed.ObserverEnv.currentTest] at h
  subst h
  simp only [Testbed.observerIteration]
  cases po with
  | error e => simp
  | ok pins =>
    by_cases hall : pins.all plo = true
    · cases oOk with
      | false => simp [hall]
      | true =>
        cases cOk with
        | false => simp [hall]
        | true =>
          simp only [hall, Bool.not_true, Bool.false_eq_true, if_false,
            Bool.not_false, if_true]
          constructor
          · intro _
            constructor
            · simp [List.count_append, List.count_eq_zero, List.mem_map]
            · rw [List.getLast?_concat]
          · intro hcontra
            cases hcontra
    · simp [hall]

/-- C6 witness: the amended statement at the fully successful observer
environment, whose event log is three barriers, one response send, and the
terminating sentinel. -/
theorem observer_sentinel_only_on_success_witness :
    Testbed.obsEnvGood.currentTest = some Testbed.tAlpha ∧
    (((Testbed.observerIteration Testbed.obsEnvGood).2 = false →
        ((Testbed.observerIteration Testbed.obsEnvGood).1.count
            (Testbed.ObsEvent.send none) = 1 ∧
         (Testbed.observerIteration Testbed.obsEnvGood).1.getLast?
            = some (Testbed.ObsEvent.send none))) ∧
     ((Testbed.observerIteration Testbed.obsEnvGood).2 = true →
        Testbed.ObsEvent.send none
          ∉ (Testbed.observerIteration Testbed.obsEnvGood).1)) :=
  ⟨rfl, observer_sentinel_only_on_success Testbed.obsEnvGood Testbed.tAlpha rfl⟩

end Clockwise

namespace Clockwise

/-- C7 counterexample: with one meter "m" and two metered tests recording
samples 1 and 2 respectively, the messages drained for the second test are
`[("m", 1), ("m", 2)]` and the executor's grouped energy data for the second
test's evaluation is `[("m", [1, 2])]`: the sample recorded during the first
test reappears, so the second evaluation does not hold exactly the samples
recorded between its own "go" and "done". -/
theorem metering_samples_reappear_cx :
    Testbed.meteringRun ["m"] [⟨true, [("m", 1)]⟩, ⟨true, [("m", 2)]⟩]
      = [[("m", 1)], [("m", 1), ("m", 2)]] ∧
    Testbed.groupEnergy ((Testbed.meteringRun ["m"]
        [⟨true, [("m", 1)]⟩, ⟨true, [("m", 2)]⟩]).getD 1 [])
      = [("m", [1, 2])] ∧
    Testbed.groupEnergy ((Testbed.meteringRun ["m"]
        [⟨true, [("m", 1)]⟩, ⟨true, [("m", 2)]⟩]).getD 1 [])
      ≠ [("m", [2])] := by
  decide

/-- Helper: appending one (meter id, value) record to buffers of the shape
`meters.map (fun m => (m, f m))` appends the value to exactly the matching
buffers. -/
theorem appendSample_map :
    ∀ (meters : List String) (f : String → List Nat) (a : String) (b : Nat),
      Testbed.appendSample (meters.map fun m => (m, f m)) a b
        = meters.map fun m => (m, f m ++ if a = m then [b] else [])
| [], _, _, _ => rfl
| m :: ms, f, a, b => by
    have ih := appendSample_map ms f a b
    simp only [List.map_cons, Testbed.appendSample] at ih ⊢
    rw [ih]
    by_cases hm : m = a
    · subst hm
      simp
    · have hm2 : ¬ a = m := fun hh => hm hh.symm
      simp [hm, hm2]

/-- Helper: `test.meter` on buffers of shape `meters.map (fun m => (m, f m))`
appends, per meter, exactly the values recorded for it, in order. -/
theorem meterAppend_map :
    ∀ (recs : List (String × Nat)) (meters : List String)
      (f : String → List Nat),
      Testbed.meterAppend (meters.map fun m => (m, f m)) recs
        = meters.map fun m => (m, f m ++ Testbed.recFor recs m)
| [], meters, f => by
    simp [Testbed.meterAppend, Testbed.recFor]
| (a, b) :: recs, meters, f => by
    simp only [Testbed.meterAppend, List.foldl_cons]
    rw [show Testbed.appendSample (meters.map fun m => (m, f m)) a b
          = meters.map fun m => (m, f m ++ if a = m then [b] else []) from
        appendSample_map meters f a b]
    have ih := meterAppend_map recs meters
      (fun m => f m ++ if a = m then [b] else [])
    simp only [Testbed.meterAppend] at ih
    rw [ih]
    apply List.map_congr_left
    intro m _
    by_cases hm : a = m <;>
      simp [Testbed.recFor, hm, List.append_assoc]

/-- Helper: the per-test message lists of the metering loop, with the initial
buffer contents generalised: the messages sent after test `i` stream the
initial content extended by everything recorded by tests `0..i`. -/
theorem meteringGo_getD :
    ∀ (envs : List Testbed.MeterTestEnv) (meters : List String)
      (f : String → List Nat) (i : Nat), i < envs.length →
      (Testbed.meteringGo (meters.map fun m => (m, f m)) envs).getD i []
        = Testbed.sendAll
            (meters.map fun m => (m, f m ++ Testbed.accumFor envs i m))
| [], _, _, i, hi => absurd hi (by simp)
| e :: rest, meters, f, 0, _ => by
    cases hnm : e.needMetering with
    | false =>
      simp [Testbed.meteringGo, hnm, Testbed.accumFor]
    | true =>
      simp [Testbed.meteringGo, hnm, meterAppend_map, Testbed.accumFor]
| e :: rest, meters, f, i + 1, hi => by
    have hi' : i < rest.length := by
      simpa using Nat.lt_of_succ_lt_succ hi
    have hacc : ∀ m, Testbed.accumFor (e :: rest) (i + 1) m
        = (if e.needMetering then Testbed.recFor e.recorded m else [])
            ++ Testbed.accumFor rest i m := by
      intro m
      simp [Testbed.accumFor]
    cases hnm : e.needMetering with
    | false =>
      have ih := meteringGo_getD rest meters f i hi'
      simp [Testbed.meteringGo, hnm, hacc]
      simpa using ih
    | true =>
      have ih := meteringGo_getD rest meters
        (fun m => f m ++ Testbed.recFor e.recorded m) i hi'
      simp [Testbed.meteringGo, hnm, meterAppend_map, hacc]
      simpa [List.append_assoc] using ih

/-- C7 amended: the metering thread's sample buffers are created once per run
and never cleared between tests, so the messages drained for test `i` — and
hence the energy data of its Evaluation — stream, per meter, the
concatenation of every sample recorded by the metered tests `0..i` of the
run, in test order: earlier tests' samples reappear in every later test's
data. -/
theorem metering_evaluation_accumulates_run_samples (meters : List String)
    (envs : List Testbed.MeterTestEnv) (i : Nat) (hi : i < envs.length) :
    (Testbed.meteringRun meters envs).getD i []
      = Testbed.sendAll
          (meters.map fun m => (m, Testbed.accumFor envs i m)) := by
  have h := meteringGo_getD envs meters (fun _ => []) i hi
  simpa [Testbed.meteringRun] using h

/-- C7 witness: the amended statement at the concrete two-test run over one
meter. -/
theorem metering_evaluation_accumulates_run_samples_witness :
    (1 < ([⟨true, [("m", 1)]⟩, ⟨true, [("m", 2)]⟩] :
        List Testbed.MeterTestEnv).length) ∧
    (Testbed.meteringRun ["m"]
        [⟨true, [("m", 1)]⟩, ⟨true, [("m", 2)]⟩]).getD 1 []
      = Testbed.sendAll (["m"].map fun m =>
          (m, Testbed.accumFor [⟨true, [("m", 1)]⟩, ⟨true, [("m", 2)]⟩] 1 m)) :=
  ⟨by decide,
   metering_evaluation_accumulates_run_samples ["m"]
     [⟨true, [("m", 1)]⟩, ⟨true, [("m", 2)]⟩] 1 (by decide)⟩

end Clockwise
